import Mathlib

/-!
Verification of the rate acquisition, caching, and fallback subsystem of
the currency-converter server (`src/services/exchangeRateService.js`,
`src/database/index.js`, `src/config/index.js`).

The JavaScript is shallowly embedded: JS numbers are modelled as rationals
(`ℚ`), the module-level mutable `ratesCache` slot as an explicit
`Option Snapshot` threaded through each operation, and the asynchronous
I/O collaborators (the upstream `fetch`, the SQLite `saveRates` / `getRates`
calls) as outcome parameters of type `Except`：`Except.error` stands for a
rejected promise (a thrown exception at the `await`), `Except.ok` for a
resolved one.  JS object property access over the rates mapping is modelled
by association-list lookup, and JS truthiness of `rates[code]` by
"present and non-zero".
-/

/-- Constant `BASE_CURRENCY` from `src/config/index.js`. -/
def BASE_CURRENCY : String := "USD"

/-- The in-memory / persisted rate snapshot: `{base_currency, rates, last_updated}`.
Rates are an association list (JS object keys are unique and ordered). -/
structure Snapshot where
  base_currency : String
  rates : List (String × ℚ)
  last_updated : String
deriving DecidableEq, Repr

/-- Parsed JSON body of the upstream provider response: a `result` status
field and the `conversion_rates` mapping. -/
structure ApiResponse where
  result : String
  conversion_rates : List (String × ℚ)
deriving DecidableEq, Repr

/-- Outcome of `await fetch(API_URL)` followed by `await response.json()`:
`error` = network error or malformed (unparseable) response, both of which
throw; `ok` = a parsed JSON body. -/
abbrev FetchOutcome := Except Unit ApiResponse

/-- Outcome of `await saveRates(...)` (the store write): `error` = rejected. -/
abbrev SaveOutcome := Except Unit Unit

/-- Outcome of `await getRates(BASE_CURRENCY)` (the store read):
`error` = rejected (I/O or JSON-parse failure inside `getRates`),
`ok none` = no row, `ok (some s)` = the stored snapshot. -/
abbrev DbGetOutcome := Except Unit (Option Snapshot)

/-- The `try` block of `updateExchangeRates`.  The error payload is the
value of the mutable `ratesCache` at the moment of the throw (the
`saveRates` call can throw after the cache was already reassigned). -/
def updateTryBlock (fetch : FetchOutcome) (save : SaveOutcome) (now : String)
    (ratesCache : Option Snapshot) : Except (Option Snapshot) (Option Snapshot) :=
  match fetch with
  | Except.error _ => Except.error ratesCache
  | Except.ok data =>
    if data.result = "success" then
      let ratesCache' : Option Snapshot :=
        some { base_currency := BASE_CURRENCY
               rates := data.conversion_rates
               last_updated := now }
      match save with
      | Except.ok _ => Except.ok ratesCache'
      | Except.error _ => Except.error ratesCache'
    else
      Except.ok ratesCache

/-- The `catch (error)` handler of `updateExchangeRates`: if the cache is
falsy (`null`), reassign it from `getRates(BASE_CURRENCY)`, whose own
failure is caught by the inner `try`/`catch` and only logged.  The handler
itself never throws. -/
def updateCatchBlock (dbGet : DbGetOutcome)
    (ratesCache : Option Snapshot) : Except (Option Snapshot) (Option Snapshot) :=
  if ratesCache.isNone then
    match dbGet with
    | Except.ok row => Except.ok row
    | Except.error _ => Except.ok ratesCache
  else
    Except.ok ratesCache

/-- Function `updateExchangeRates` as a whole, still exposing a (provably absent)
exception channel: run the `try` block; on a throw, run the `catch`
handler on the cache value at throw time. -/
def updateExchangeRatesE (fetch : FetchOutcome) (save : SaveOutcome)
    (dbGet : DbGetOutcome) (now : String)
    (ratesCache : Option Snapshot) : Except (Option Snapshot) (Option Snapshot) :=
  match updateTryBlock fetch save now ratesCache with
  | Except.ok c => Except.ok c
  | Except.error c => updateCatchBlock dbGet c

/-- Function `updateExchangeRates`: the new value of the `ratesCache` slot
(the exception channel is provably dead). -/
def updateExchangeRates (fetch : FetchOutcome) (save : SaveOutcome)
    (dbGet : DbGetOutcome) (now : String)
    (ratesCache : Option Snapshot) : Option Snapshot :=
  match updateExchangeRatesE fetch save dbGet now ratesCache with
  | Except.ok c => c
  | Except.error c => c

/-- Result of a call to `getExchangeRates`: the returned value, the value
of the `ratesCache` slot after the call, and how many `getRates` loads
from the persistent store the call performed. -/
structure GetRatesOut where
  result : Option Snapshot
  cacheAfter : Option Snapshot
  dbLoads : Nat
deriving DecidableEq, Repr

/-- Function `getExchangeRates`: return the cache if truthy, else one
`getRates(BASE_CURRENCY)` load, returning its row (possibly `null`) and
`null` if it throws; the cache slot is never assigned. -/
def getExchangeRates (dbGet : DbGetOutcome)
    (ratesCache : Option Snapshot) : GetRatesOut :=
  match ratesCache with
  | some s => { result := some s, cacheAfter := ratesCache, dbLoads := 0 }
  | none =>
    match dbGet with
    | Except.ok row => { result := row, cacheAfter := ratesCache, dbLoads := 1 }
    | Except.error _ => { result := none, cacheAfter := ratesCache, dbLoads := 1 }

/-- Rounding `Number(x.toFixed(6))`: round to 6 decimal places, ties away from
zero (idealised over `ℚ`; the JS source operates on IEEE doubles but the
spec fixes the decimal-rounding intent). -/
def round6 (q : ℚ) : ℚ :=
  if 0 ≤ q then (⌊q * 1000000 + 1/2⌋ : ℚ) / 1000000
  else -((⌊-q * 1000000 + 1/2⌋ : ℚ) / 1000000)

/-- JS property access `rates[code]` under truthiness testing
(`!rates[from]`): the value when present and non-zero, else `none`
(`undefined` and `0` are both falsy). -/
def truthyRate (rates : List (String × ℚ)) (code : String) : Option ℚ :=
  match rates.lookup code with
  | some v => if v = 0 then none else some v
  | none => none

/-- The JSON object returned by `convertCurrency` on success. -/
structure ConvResult where
  fromC : String
  toC : String
  amount : ℚ
  result : ℚ
  rate : ℚ
  last_updated : String
deriving DecidableEq, Repr

/-- The return value of `convertCurrency(from, to, amount)`: `null` when no
snapshot is obtainable or when `rates[from]` / `rates[to]` is falsy,
otherwise the conversion object with the amount routed through the base
currency, rounded to 6 decimals, and the rate derived from the already
rounded result. -/
def convertCurrencyResult (dbGet : DbGetOutcome) (ratesCache : Option Snapshot)
    (fromC toC : String) (amount : ℚ) : Option ConvResult :=
  match (getExchangeRates dbGet ratesCache).result with
  | none => none
  | some ratesData =>
    match truthyRate ratesData.rates fromC, truthyRate ratesData.rates toC with
    | some rFrom, some rTo =>
      let convertedAmountRaw : ℚ :=
        if fromC = BASE_CURRENCY then amount * rTo
        else if toC = BASE_CURRENCY then amount / rFrom
        else (amount / rFrom) * rTo
      let convertedAmount := round6 convertedAmountRaw
      some { fromC := fromC
             toC := toC
             amount := amount
             result := convertedAmount
             rate := round6 (convertedAmount / amount)
             last_updated := ratesData.last_updated }
    | _, _ => none

/-- Function `convertCurrency(from, to, amount)`: result value, paired with the
`ratesCache` slot after the call (the function body contains no assignment
to the slot; its only state access is the `getExchangeRates` call). -/
def convertCurrency (dbGet : DbGetOutcome) (ratesCache : Option Snapshot)
    (fromC toC : String) (amount : ℚ) : Option ConvResult × Option Snapshot :=
  (convertCurrencyResult dbGet ratesCache fromC toC amount,
   (getExchangeRates dbGet ratesCache).cacheAfter)

/-- The regex `/^[A-Z]{3}$/` of `getAvailableCurrencies`' filter. -/
def isUpper3 (s : String) : Bool :=
  s.length == 3 && s.toList.all (fun c => 'A' ≤ c && c ≤ 'Z')

/-- One entry of the currency list: `{code, name}`. -/
structure CurrencyEntry where
  code : String
  vname : String
deriving DecidableEq, Repr

/-- Comparison used by `currencies.sort((a, b) => a.code.localeCompare(b.code))`;
for 3-uppercase-ASCII codes `localeCompare` agrees with codepoint order. -/
def entryLe (a b : CurrencyEntry) : Prop := a.code ≤ b.code

instance : DecidableRel entryLe := fun a b => inferInstanceAs (Decidable (a.code ≤ b.code))

instance : IsTotal CurrencyEntry entryLe := ⟨fun a b => le_total a.code b.code⟩

instance : IsTrans CurrencyEntry entryLe := ⟨fun _ _ _ hab hbc => le_trans hab hbc⟩

/-- The JSON object returned by `getAvailableCurrencies` on success. -/
structure CurrencyList where
  currencies : List CurrencyEntry
  last_updated : String
deriving DecidableEq, Repr

/-- Function `getAvailableCurrencies(displayName)`: filter the rates keys by the
3-uppercase-letter pattern, map each to `{code, name}` with
`Intl.DisplayNames` resolution (modelled by the abstract collaborator
`displayName`, `none` when `.of(code)` is falsy) falling back to the code,
sort by code ascending; paired with the unchanged cache slot. -/
def getAvailableCurrenciesResult (displayName : String → Option String)
    (dbGet : DbGetOutcome) (ratesCache : Option Snapshot) : Option CurrencyList :=
  match (getExchangeRates dbGet ratesCache).result with
  | none => none
  | some ratesData =>
    let currencies : List CurrencyEntry :=
      ((ratesData.rates.map Prod.fst).filter (fun code => isUpper3 code)).map
        (fun code => { code := code, vname := (displayName code).getD code })
    some { currencies := List.insertionSort entryLe currencies
           last_updated := ratesData.last_updated }

/-- Function `getAvailableCurrencies` paired with the `ratesCache` slot after the
call (the function body contains no assignment to the slot). -/
def getAvailableCurrencies (displayName : String → Option String)
    (dbGet : DbGetOutcome) (ratesCache : Option Snapshot) :
    Option CurrencyList × Option Snapshot :=
  (getAvailableCurrenciesResult displayName dbGet ratesCache,
   (getExchangeRates dbGet ratesCache).cacheAfter)

/-- The enumerated refresh failures: a thrown exception (network error or
malformed response) or a parsed body whose `result` field is not
`"success"`. -/
def refreshFails (fetch : FetchOutcome) : Prop :=
  match fetch with
  | Except.error _ => True
  | Except.ok data => data.result ≠ "success"

instance (fetch : FetchOutcome) : Decidable (refreshFails fetch) := by
  unfold refreshFails
  cases fetch with
  | error e => exact inferInstanceAs (Decidable True)
  | ok data => exact inferInstanceAs (Decidable (data.result ≠ "success"))

/-- A concrete rates mapping used in the concrete instantiations below
(the spec's own worked example: `{EUR: 0.9, JPY: 150}`). -/
def exRates : List (String × ℚ) := [("EUR", 9/10), ("JPY", 150)]

/-- A concrete snapshot over `exRates`. -/
def exSnap : Snapshot :=
  { base_currency := "USD", rates := exRates, last_updated := "t0" }

lemma round6_one : round6 1 = 1 := by norm_num [round6]

lemma getExchangeRates_some (dbGet : DbGetOutcome) (s : Snapshot) :
    getExchangeRates dbGet (some s) =
      { result := some s, cacheAfter := some s, dbLoads := 0 } := rfl

/-- C9: for every outcome of the upstream fetch, the store write, and the
store read fallback, `updateExchangeRates` never raises to its caller:
its exception channel always carries `Except.ok`. -/
theorem updateExchangeRates_never_raises (fetch : FetchOutcome)
    (save : SaveOutcome) (dbGet : DbGetOutcome) (now : String)
    (ratesCache : Option Snapshot) :
    ∃ c, updateExchangeRatesE fetch save dbGet now ratesCache = Except.ok c := by
  unfold updateExchangeRatesE
  split
  · exact ⟨_, rfl⟩
  · unfold updateCatchBlock
    split
    · split
      · exact ⟨_, rfl⟩
      · exact ⟨_, rfl⟩
    · exact ⟨_, rfl⟩

/-- C10: none of the read operations (`getExchangeRates`,
`convertCurrency`, `getAvailableCurrencies`) modifies the cache slot:
the slot after each call equals the slot before, including on a
cache-miss read served from the persistent store. -/
theorem reads_preserve_cache (displayName : String → Option String)
    (dbGet : DbGetOutcome) (ratesCache : Option Snapshot)
    (fromC toC : String) (amount : ℚ) :
    (getExchangeRates dbGet ratesCache).cacheAfter = ratesCache ∧
    (convertCurrency dbGet ratesCache fromC toC amount).2 = ratesCache ∧
    (getAvailableCurrencies displayName dbGet ratesCache).2 = ratesCache := by
  have h : (getExchangeRates dbGet ratesCache).cacheAfter = ratesCache := by
    cases ratesCache with
    | none => cases dbGet <;> rfl
    | some s => rfl
  exact ⟨h, h, h⟩

/-- C5: with an empty cache and a persistent store holding a snapshot for
the configured base currency, `getExchangeRates` returns exactly that
stored snapshot, performing exactly one load from the store. -/
theorem getExchangeRates_store_fallback (dbSnap : Snapshot) :
    getExchangeRates (Except.ok (some dbSnap)) none =
      { result := some dbSnap, cacheAfter := none, dbLoads := 1 } := rfl

/-- C1 counterexample: a refresh that fails with a non-success provider
status (`result = "error"`) on an empty cache does NOT attempt the
store fallback — the cache remains empty even though the store load
would have succeeded with a row (`exSnap`). -/
theorem updateExchangeRates_nonSuccess_skips_fallback_cex :
    updateExchangeRates
      (Except.ok { result := "error", conversion_rates := [] })
      (Except.ok ()) (Except.ok (some exSnap)) "t1" none = none := by
  decide

/-- C1 (amended): only refresh failures that throw — network error or
malformed response — trigger the store fallback on an empty cache: the
new cache is the loaded row when the load succeeds, and stays empty when
the load fails or finds no row.  A non-success provider status leaves
the empty cache unchanged without consulting the store. -/
theorem updateExchangeRates_empty_cache_fallback (e : Unit)
    (save : SaveOutcome) (dbGet : DbGetOutcome) (now : String)
    (resp : ApiResponse) (hns : resp.result ≠ "success") :
    (updateExchangeRates (Except.error e) save dbGet now none =
      match dbGet with
      | Except.ok row => row
      | Except.error _ => none) ∧
    updateExchangeRates (Except.ok resp) save dbGet now none = none := by
  constructor
  · cases dbGet <;> rfl
  · simp [updateExchangeRates, updateExchangeRatesE, updateTryBlock, hns]

/-- Witness for C1 (amended) at concrete inputs: a thrown fetch failure
with an empty cache populates the cache from the stored row `exSnap`,
and a non-success response leaves the cache empty. -/
theorem updateExchangeRates_empty_cache_fallback_witness :
    (("error" : String) ≠ "success") ∧
    ((updateExchangeRates (Except.error ()) (Except.ok ())
        (Except.ok (some exSnap)) "t1" none =
      match (Except.ok (some exSnap) : DbGetOutcome) with
      | Except.ok row => row
      | Except.error _ => none) ∧
    updateExchangeRates
      (Except.ok { result := "error", conversion_rates := [] })
      (Except.ok ()) (Except.ok (some exSnap)) "t1" none = none) :=
  ⟨by decide,
   updateExchangeRates_empty_cache_fallback () (Except.ok ())
     (Except.ok (some exSnap)) "t1"
     { result := "error", conversion_rates := [] } (by decide)⟩

/-- C2: when the cache holds a snapshot, a failing refresh — thrown fetch
error or non-success provider status — leaves the cached snapshot
unchanged, and `getExchangeRates` afterwards (under any store outcome)
returns exactly the pre-existing snapshot. -/
theorem updateExchangeRates_sticky_last_good (snap : Snapshot)
    (fetch : FetchOutcome) (save : SaveOutcome) (dbGet dbGet' : DbGetOutcome)
    (now : String) (h : refreshFails fetch) :
    updateExchangeRates fetch save dbGet now (some snap) = some snap ∧
    (getExchangeRates dbGet'
      (updateExchangeRates fetch save dbGet now (some snap))).result =
        some snap := by
  have hcache : updateExchangeRates fetch save dbGet now (some snap) = some snap := by
    cases fetch with
    | error e => rfl
    | ok data =>
      have hd : ¬ data.result = "success" := h
      simp [updateExchangeRates, updateExchangeRatesE, updateTryBlock, hd]
  exact ⟨hcache, by rw [hcache, getExchangeRates_some]⟩

/-- Witness for C2 at concrete inputs: with `exSnap` cached, a thrown
fetch failure leaves the cache and subsequent reads at `exSnap`. -/
theorem updateExchangeRates_sticky_last_good_witness :
    refreshFails (Except.error ()) ∧
    (updateExchangeRates (Except.error ()) (Except.ok ()) (Except.ok none)
        "t1" (some exSnap) = some exSnap ∧
    (getExchangeRates (Except.ok none)
      (updateExchangeRates (Except.error ()) (Except.ok ()) (Except.ok none)
        "t1" (some exSnap))).result = some exSnap) :=
  ⟨trivial,
   updateExchangeRates_sticky_last_good exSnap (Except.error ())
     (Except.ok ()) (Except.ok none) (Except.ok none) "t1" trivial⟩

/-- C3: on every successful conversion the `rate` field equals
`round6 (result / amount)` where `result` is itself the 6-decimal
rounding of the raw routed conversion — the rate is derived from the
rounded result, not from the raw stored rates. -/
theorem convertCurrency_rate_from_rounded_result (dbGet : DbGetOutcome)
    (ratesCache : Option Snapshot) (fromC toC : String) (amount : ℚ)
    (r : ConvResult)
    (h : convertCurrencyResult dbGet ratesCache fromC toC amount = some r) :
    r.rate = round6 (r.result / amount) ∧
    ∃ rd rFrom rTo, (getExchangeRates dbGet ratesCache).result = some rd ∧
      truthyRate rd.rates fromC = some rFrom ∧
      truthyRate rd.rates toC = some rTo ∧
      r.result = round6 (if fromC = BASE_CURRENCY then amount * rTo
        else if toC = BASE_CURRENCY then amount / rFrom
        else (amount / rFrom) * rTo) := by
  unfold convertCurrencyResult at h
  split at h
  · exact absurd h (by simp)
  · rename_i rd hrd
    split at h
    · rename_i rFrom rTo hf ht
      injection h with h
      subst h
      exact ⟨rfl, rd, rFrom, rTo, hrd, hf, ht, rfl⟩
    · exact absurd h (by simp)

/-- Evaluation of `rates[code]` truthiness over the example snapshot. -/
lemma truthyRate_exSnap_EUR : truthyRate exSnap.rates "EUR" = some (9/10) := by
  simp [truthyRate, exSnap, exRates, List.lookup]

lemma truthyRate_exSnap_JPY : truthyRate exSnap.rates "JPY" = some 150 := by
  simp [truthyRate, exSnap, exRates, List.lookup]

/-- Shared unfolding lemma: the value `convertCurrencyResult` takes when a
snapshot is available and both currency codes are truthy in its rates. -/
lemma convertCurrencyResult_some (dbGet : DbGetOutcome)
    (ratesCache : Option Snapshot) (fromC toC : String) (amount : ℚ)
    (rd : Snapshot) (rFrom rTo : ℚ)
    (hrd : (getExchangeRates dbGet ratesCache).result = some rd)
    (hf : truthyRate rd.rates fromC = some rFrom)
    (ht : truthyRate rd.rates toC = some rTo) :
    convertCurrencyResult dbGet ratesCache fromC toC amount =
      some { fromC := fromC, toC := toC, amount := amount
             result := round6 (if fromC = BASE_CURRENCY then amount * rTo
               else if toC = BASE_CURRENCY then amount / rFrom
               else (amount / rFrom) * rTo)
             rate := round6 (round6 (if fromC = BASE_CURRENCY then amount * rTo
               else if toC = BASE_CURRENCY then amount / rFrom
               else (amount / rFrom) * rTo) / amount)
             last_updated := rd.last_updated } := by
  unfold convertCurrencyResult
  rw [hrd]
  simp only [hf, ht]

/-- The conversion object produced for `convert("EUR","JPY",100)` over
`exSnap` (the spec's worked example): `(100/0.9)*150` rounded to 6
decimals is `16666.666667`, and the rate derived from it is `166.666667`. -/
def exConv : ConvResult :=
  { fromC := "EUR", toC := "JPY", amount := 100
    result := 16666666667/1000000, rate := 166666667/1000000
    last_updated := "t0" }

lemma exConv_eval :
    convertCurrencyResult (Except.ok none) (some exSnap) "EUR" "JPY" 100 =
      some exConv := by
  rw [convertCurrencyResult_some (Except.ok none) (some exSnap) "EUR" "JPY"
    100 exSnap (9/10) 150 rfl truthyRate_exSnap_EUR truthyRate_exSnap_JPY]
  rw [if_neg (show ¬ ("EUR" = BASE_CURRENCY) by decide),
    if_neg (show ¬ ("JPY" = BASE_CURRENCY) by decide)]
  norm_num [round6, exConv, exSnap]

/-- Witness for C3 at the spec's worked example. -/
theorem convertCurrency_rate_from_rounded_result_witness :
    (convertCurrencyResult (Except.ok none) (some exSnap) "EUR" "JPY" 100 =
      some exConv) ∧
    (exConv.rate = round6 (exConv.result / 100) ∧
    ∃ rd rFrom rTo,
      (getExchangeRates (Except.ok none) (some exSnap)).result = some rd ∧
      truthyRate rd.rates "EUR" = some rFrom ∧
      truthyRate rd.rates "JPY" = some rTo ∧
      exConv.result = round6 (if "EUR" = BASE_CURRENCY then 100 * rTo
        else if "JPY" = BASE_CURRENCY then 100 / rFrom
        else (100 / rFrom) * rTo)) :=
  ⟨exConv_eval,
   convertCurrency_rate_from_rounded_result (Except.ok none) (some exSnap)
     "EUR" "JPY" 100 exConv exConv_eval⟩

/-- C4: with a snapshot available and both currencies truthy in `rates`,
the conversion routes through the base currency — `amount * rates[to]`
when `from` is the base, `amount / rates[from]` when `to` is the base,
and `(amount / rates[from]) * rates[to]` otherwise — and the result is
the 6-decimal rounding of that routed value. -/
theorem convertCurrency_routes_through_base (dbGet : DbGetOutcome)
    (ratesCache : Option Snapshot) (fromC toC : String) (amount : ℚ)
    (rd : Snapshot) (rFrom rTo : ℚ)
    (hrd : (getExchangeRates dbGet ratesCache).result = some rd)
    (hf : truthyRate rd.rates fromC = some rFrom)
    (ht : truthyRate rd.rates toC = some rTo) :
    convertCurrencyResult dbGet ratesCache fromC toC amount =
      some { fromC := fromC, toC := toC, amount := amount
             result := round6 (if fromC = BASE_CURRENCY then amount * rTo
               else if toC = BASE_CURRENCY then amount / rFrom
               else (amount / rFrom) * rTo)
             rate := round6 (round6 (if fromC = BASE_CURRENCY then amount * rTo
               else if toC = BASE_CURRENCY then amount / rFrom
               else (amount / rFrom) * rTo) / amount)
             last_updated := rd.last_updated } :=
  convertCurrencyResult_some dbGet ratesCache fromC toC amount rd rFrom rTo
    hrd hf ht

/-- Witness for C4 at the spec's worked example (`EUR → JPY`, amount 100,
neither currency the base). -/
theorem convertCurrency_routes_through_base_witness :
    ((getExchangeRates (Except.ok none) (some exSnap)).result = some exSnap) ∧
    (truthyRate exSnap.rates "EUR" = some (9/10)) ∧
    (truthyRate exSnap.rates "JPY" = some 150) ∧
    convertCurrencyResult (Except.ok none) (some exSnap) "EUR" "JPY" 100 =
      some { fromC := "EUR", toC := "JPY", amount := 100
             result := round6 (if "EUR" = BASE_CURRENCY then 100 * 150
               else if "JPY" = BASE_CURRENCY then (100:ℚ) / (9/10)
               else ((100:ℚ) / (9/10)) * 150)
             rate := round6 (round6 (if "EUR" = BASE_CURRENCY then 100 * 150
               else if "JPY" = BASE_CURRENCY then (100:ℚ) / (9/10)
               else ((100:ℚ) / (9/10)) * 150) / 100)
             last_updated := exSnap.last_updated } :=
  ⟨rfl, truthyRate_exSnap_EUR, truthyRate_exSnap_JPY,
   convertCurrency_routes_through_base (Except.ok none) (some exSnap)
     "EUR" "JPY" 100 exSnap (9/10) 150 rfl
     truthyRate_exSnap_EUR truthyRate_exSnap_JPY⟩

/-- C6 counterexample: with a snapshot available whose rates map the base
currency to 2, `convert(base, base, 10)` returns result `20` and rate
`2` — the base-to-base path multiplies by `rates[base]`, so the claimed
identity (`result == amount`, rate 1:1) fails. -/
theorem convert_base_base_not_identity_cex :
    convertCurrencyResult (Except.ok none)
      (some { base_currency := "USD", rates := [("USD", 2)],
              last_updated := "t0" })
      "USD" "USD" 10 =
      some { fromC := "USD", toC := "USD", amount := 10,
             result := 20, rate := 2, last_updated := "t0" } ∧
    (20 : ℚ) ≠ 10 ∧ (2 : ℚ) ≠ 1 := by
  refine ⟨?_, by norm_num, by norm_num⟩
  have hb : truthyRate
      ({ base_currency := "USD", rates := [("USD", 2)],
         last_updated := "t0" } : Snapshot).rates "USD" = some 2 := by
    simp [truthyRate, List.lookup]
  rw [convertCurrencyResult_some (Except.ok none)
    (some { base_currency := "USD", rates := [("USD", 2)],
            last_updated := "t0" })
    "USD" "USD" 10
    { base_currency := "USD", rates := [("USD", 2)], last_updated := "t0" }
    2 2 rfl hb hb]
  rw [show ("USD" : String) = BASE_CURRENCY from rfl]
  simp only [if_pos rfl]
  norm_num [round6]

/-- C6 (amended): `convert(base, base, amount)` multiplies by
`rates[base]`; when the snapshot carries the upstream's trivial self-rate
`rates[base] = 1` and the positive amount is exactly representable at 6
decimals, the result equals the amount and the rate is 1. -/
theorem convert_base_base_identity (dbGet : DbGetOutcome) (snap : Snapshot)
    (amount : ℚ) (hpos : 0 < amount)
    (hbase : truthyRate snap.rates BASE_CURRENCY = some 1)
    (hrep : round6 amount = amount) :
    convertCurrencyResult dbGet (some snap) BASE_CURRENCY BASE_CURRENCY
        amount =
      some { fromC := BASE_CURRENCY, toC := BASE_CURRENCY, amount := amount
             result := amount, rate := 1
             last_updated := snap.last_updated } := by
  rw [convertCurrencyResult_some dbGet (some snap) BASE_CURRENCY
    BASE_CURRENCY amount snap 1 1 rfl hbase hbase]
  have hne : amount ≠ 0 := ne_of_gt hpos
  simp [hrep, div_self hne, round6_one]

/-- Witness for C6 (amended): `convert("USD","USD",10)` over a snapshot
with the self-rate `USD ↦ 1` yields result 10 and rate 1. -/
theorem convert_base_base_identity_witness :
    (0 : ℚ) < 10 ∧
    truthyRate ({ base_currency := "USD",
                  rates := [("USD", 1), ("EUR", 9/10)],
                  last_updated := "t0" } : Snapshot).rates BASE_CURRENCY =
      some 1 ∧
    round6 10 = 10 ∧
    convertCurrencyResult (Except.ok none)
      (some { base_currency := "USD",
              rates := [("USD", 1), ("EUR", 9/10)],
              last_updated := "t0" })
      BASE_CURRENCY BASE_CURRENCY 10 =
      some { fromC := BASE_CURRENCY, toC := BASE_CURRENCY, amount := 10,
             result := 10, rate := 1, last_updated := "t0" } :=
  have hb : truthyRate ({ base_currency := "USD",
                          rates := [("USD", 1), ("EUR", 9/10)],
                          last_updated := "t0" } : Snapshot).rates
      BASE_CURRENCY = some 1 := by
    simp [truthyRate, List.lookup, BASE_CURRENCY]
  have hr : round6 10 = 10 := by norm_num [round6]
  ⟨by norm_num, hb, hr,
   convert_base_base_identity (Except.ok none)
     { base_currency := "USD", rates := [("USD", 1), ("EUR", 9/10)],
       last_updated := "t0" }
     10 (by norm_num) hb hr⟩

/-- C7: with a snapshot available but `from` or `to` missing from its
rates mapping, `convertCurrency` returns `null`, not a computed result. -/
theorem convertCurrency_unknown_currency (dbGet : DbGetOutcome)
    (ratesCache : Option Snapshot) (fromC toC : String) (amount : ℚ)
    (rd : Snapshot)
    (hrd : (getExchangeRates dbGet ratesCache).result = some rd)
    (hmiss : rd.rates.lookup fromC = none ∨ rd.rates.lookup toC = none) :
    convertCurrencyResult dbGet ratesCache fromC toC amount = none := by
  unfold convertCurrencyResult
  rw [hrd]
  rcases hmiss with h | h
  · have hf : truthyRate rd.rates fromC = none := by
      unfold truthyRate
      rw [h]
    simp only [hf]
  · have ht : truthyRate rd.rates toC = none := by
      unfold truthyRate
      rw [h]
    simp only [ht]
    rcases truthyRate rd.rates fromC with _ | v <;> rfl

/-- Witness for C7: `convert("EUR","XYZ",10)` over `exSnap` (whose rates
lack `XYZ`) returns `null`. -/
theorem convertCurrency_unknown_currency_witness :
    ((getExchangeRates (Except.ok none) (some exSnap)).result = some exSnap) ∧
    (exSnap.rates.lookup "EUR" = none ∨ exSnap.rates.lookup "XYZ" = none) ∧
    convertCurrencyResult (Except.ok none) (some exSnap) "EUR" "XYZ" 10 =
      none :=
  have hm : exSnap.rates.lookup "EUR" = none ∨
      exSnap.rates.lookup "XYZ" = none :=
    Or.inr (by simp [exSnap, exRates, List.lookup])
  ⟨rfl, hm,
   convertCurrency_unknown_currency (Except.ok none) (some exSnap)
     "EUR" "XYZ" 10 exSnap rfl hm⟩

/-- C8: whenever a snapshot is obtainable, `getAvailableCurrencies`
returns exactly the entries for rates keys matching the
3-uppercase-letter pattern (dropping every other key), sorted ascending
lexicographically by code, each paired with the display name falling
back to the code itself when resolution is unavailable. -/
theorem getAvailableCurrencies_filter_sort (displayName : String → Option String)
    (dbGet : DbGetOutcome) (ratesCache : Option Snapshot) (rd : Snapshot)
    (hrd : (getExchangeRates dbGet ratesCache).result = some rd) :
    ∃ out, getAvailableCurrenciesResult displayName dbGet ratesCache =
        some out ∧
      out.last_updated = rd.last_updated ∧
      List.Sorted entryLe out.currencies ∧
      List.Perm (out.currencies.map (fun e => e.code))
        ((rd.rates.map Prod.fst).filter (fun code => isUpper3 code)) ∧
      ∀ e ∈ out.currencies, e.vname = (displayName e.code).getD e.code := by
  refine ⟨{ currencies := List.insertionSort entryLe
              (((rd.rates.map Prod.fst).filter (fun code => isUpper3 code)).map
                (fun code => { code := code
                               vname := (displayName code).getD code })),
            last_updated := rd.last_updated }, ?_, rfl, ?_, ?_, ?_⟩
  · unfold getAvailableCurrenciesResult
    rw [hrd]
  · exact List.sorted_insertionSort entryLe _
  · have hperm := (List.perm_insertionSort entryLe
      (((rd.rates.map Prod.fst).filter (fun code => isUpper3 code)).map
        (fun code => ({ code := code
                        vname := (displayName code).getD code } :
          CurrencyEntry)))).map (fun e => e.code)
    simpa [List.map_map, Function.comp_def] using hperm
  · intro e he
    have hmem : e ∈ ((rd.rates.map Prod.fst).filter
        (fun code => isUpper3 code)).map
        (fun code => ({ code := code
                        vname := (displayName code).getD code } :
          CurrencyEntry)) :=
      (List.perm_insertionSort entryLe _).mem_iff.mp he
    rcases List.mem_map.mp hmem with ⟨code, _, rfl⟩
    rfl

/-- The rates mapping of the spec's currency-list example:
`{EUR:.., jpy99:.., GBP:..}` — only `EUR` and `GBP` match the pattern. -/
def exSnapMixed : Snapshot :=
  { base_currency := "USD"
    rates := [("EUR", 9/10), ("jpy99", 1), ("GBP", 4/5)]
    last_updated := "t0" }

/-- A concrete display-name collaborator: resolves `EUR` only. -/
def dnEx : String → Option String :=
  fun code => if code = "EUR" then some "Euro" else none

/-- Witness for C8 over `exSnapMixed` and the collaborator `dnEx`. -/
theorem getAvailableCurrencies_filter_sort_witness :
    ((getExchangeRates (Except.ok none) (some exSnapMixed)).result =
      some exSnapMixed) ∧
    (∃ out, getAvailableCurrenciesResult dnEx (Except.ok none)
        (some exSnapMixed) = some out ∧
      out.last_updated = exSnapMixed.last_updated ∧
      List.Sorted entryLe out.currencies ∧
      List.Perm (out.currencies.map (fun e => e.code))
        ((exSnapMixed.rates.map Prod.fst).filter (fun code => isUpper3 code)) ∧
      ∀ e ∈ out.currencies, e.vname = (dnEx e.code).getD e.code) :=
  ⟨rfl,
   getAvailableCurrencies_filter_sort dnEx (Except.ok none)
     (some exSnapMixed) exSnapMixed rfl⟩
